import Mathlib

/-!
Shallow embedding of the ooler_ble_client repository (PostLogical/ooler_ble_client),
source files src/ooler_ble_client/client.py, models.py, const.py.

The embedding models the Python methods of OolerBLEDevice as explicit
state-passing functions over a `Device` record.  A method that can raise an
exception returns an `Outcome` (ok or a propagating Python exception) together
with the post-state of the object: in Python an exception leaves the already
performed attribute mutations in place, so the post-state must survive the
error.  The BLE transport collaborator (bleak) is modelled as a record of pure
functions describing the outcome of each transport call.

Object identity: Python distinguishes rebinding `self._state = new_object`
(wholesale replacement) from `self._state.field = v` (in-place mutation of the
same object).  The embedding tracks this with `stateGen`, a heap-identity
counter that is bumped exactly when the code rebinds `self._state` to a newly
constructed object and left unchanged by in-place field assignment.

Callback firing: `_fire_callbacks` invokes every registered callback once with
`self._state`.  The embedding records one entry per `_fire_callbacks`
invocation (one firing of the whole callback set, carrying the state passed to
the callbacks) in the observation log `fires`; attempted GATT writes are
recorded in the observation log `writes`.
-/

namespace Ooler

/-- Python exceptions that the embedded code can raise. -/
inductive PyError where
  | indexError
  | valueError
  | typeError
  | overflowError
  | unicodeDecodeError
  | transportError
  | recursionError
  deriving DecidableEq, Repr

/-- Result of running one embedded method: normal return, or a propagating
exception. -/
inductive Outcome where
  | ok
  | error (e : PyError)
  deriving DecidableEq, Repr

/-- Python int.from_bytes(data, "little"): unsigned little-endian integer; the
first byte is least significant, and the empty byte string decodes to 0. -/
def intFromBytesLE (bs : List Nat) : Nat :=
  bs.foldr (fun b acc => b + 256 * acc) 0

/-- Python n.to_bytes(1, "little"): a single byte for 0 <= n < 256, otherwise
OverflowError (negative values also raise OverflowError). -/
def intToBytes1 (n : Int) : Except PyError (List Nat) :=
  if 0 ≤ n ∧ n < 256 then .ok [n.toNat] else .error .overflowError

/-- Python bytes.decode(encoding="ascii"): succeeds iff every byte is < 128. -/
def asciiDecode (bs : List Nat) : Except PyError String :=
  if bs.all (· < 128) then .ok ⟨bs.map Char.ofNat⟩ else .error .unicodeDecodeError

/-- Python list indexing l[i] for a non-negative index: IndexError when out of
range.  (The indices fed to it here come from int.from_bytes, which is always
non-negative, so a Nat index is faithful.) -/
def pyListGet (l : List String) (i : Nat) : Except PyError String :=
  match l.get? i with
  | some v => .ok v
  | none => .error .indexError

/-- Python list.index(v): index of the first occurrence, ValueError if absent. -/
def pyListIndex (l : List String) (v : String) : Except PyError Nat :=
  match l.findIdx? (· = v) with
  | some i => .ok i
  | none => .error .valueError

/-- MODE_INT_TO_MODE_STATE from const.py. -/
def MODE_INT_TO_MODE_STATE : List String := ["Silent", "Regular", "Boost"]

/-- DISCONNECT_DELAY from const.py. -/
def DISCONNECT_DELAY : Int := 120

/-- Modelled from the spec: the characteristic identifiers POWER_CHAR,
MODE_CHAR, SETTEMP_CHAR, ACTUALTEMP_CHAR, WATER_LEVEL_CHAR, PUMP_WATTS_CHAR,
PUMP_VOLTS_CHAR, CLEAN_CHAR and NAME_CHAR are referenced throughout client.py
but their definitions are missing from const.py under src/ (const.py only
defines the four `*_CHARACTERISTIC` UUID strings).  The spec's Characteristic
Map is "a static mapping from protocol identifier (UUID string) to semantic
field", i.e. the identifiers are pairwise distinct UUID strings; we embed them
as an enumerated identifier type with decidable equality. -/
inductive CharUuid where
  | POWER_CHAR
  | MODE_CHAR
  | SETTEMP_CHAR
  | ACTUALTEMP_CHAR
  | WATER_LEVEL_CHAR
  | PUMP_WATTS_CHAR
  | PUMP_VOLTS_CHAR
  | CLEAN_CHAR
  | NAME_CHAR
  deriving DecidableEq, Repr

/-- The OolerBLEState dataclass of src/ooler_ble_client/models.py.  The
dataclass declares exactly eight fields: power, mode, set_temperature,
actual_temperature, water_level, pump_watts, clean, connected.

The extra component `pump_volts` models the dynamic attribute that
client.py's notification handler assigns on the state object
(`self._state.pump_volts = ...`): Python allows adding attributes to a
non-frozen dataclass instance, but such a dynamic attribute is NOT a declared
field and does not participate in the generated dataclass `__eq__` (see
`pyEq` below) nor in the generated `__init__`. -/
structure OolerBLEState where
  power : Option Bool := none
  mode : Option String := none
  set_temperature : Option Int := none
  actual_temperature : Option Int := none
  water_level : Option Int := none
  pump_watts : Option Int := none
  clean : Option Bool := none
  connected : Bool := false
  pump_volts : Option Int := none
  deriving DecidableEq, Repr

/-- The dataclass-generated `__eq__` of OolerBLEState: compares the eight
declared fields of models.py; the dynamic attribute pump_volts does not
participate. -/
def pyEq (a b : OolerBLEState) : Bool :=
  a.power == b.power && a.mode == b.mode &&
  a.set_temperature == b.set_temperature &&
  a.actual_temperature == b.actual_temperature &&
  a.water_level == b.water_level && a.pump_watts == b.pump_watts &&
  a.clean == b.clean && a.connected == b.connected

/-- The defaulted dataclass instance OolerBLEState() used to initialise
`_state` (client.py line 23). -/
def initState : OolerBLEState := {}

/-- Model of a bleak BleakClient handle: `is_connected` is the liveness the
transport reports for this handle. -/
structure BleakClientModel where
  is_connected : Bool
  deriving DecidableEq, Repr

/-- Model of the BLE transport collaborator: the outcome of each transport
call (establish_connection, read_gatt_char, write_gatt_char, stop_notify,
BleakClient.disconnect). -/
structure Transport where
  establish : Except PyError BleakClientModel
  read : CharUuid → Except PyError (List Nat)
  write : CharUuid → List Nat → Bool → Except PyError Unit
  stopNotify : CharUuid → Except PyError Unit
  disconnectClient : Except PyError Unit

/-- The mutable attributes of an OolerBLEDevice instance, plus the two
observation logs `fires` and `writes` (see the file header).  `stateGen` is
the heap identity of the object currently bound to `self._state`. -/
structure Device where
  _client : Option BleakClientModel := none
  _state : OolerBLEState := initState
  stateGen : Nat := 0
  _disconnect_timer : Bool := false
  _expected_disconnect : Bool := false
  fires : List OolerBLEState := []
  writes : List (CharUuid × List Nat × Bool) := []
  deriving DecidableEq, Repr

/-- A freshly constructed OolerBLEDevice: no client handle, default state, no
pending timer, nothing fired or written. -/
def freshDevice : Device := {}

/-- client.py lines 78-81, `_fire_callbacks`: call every registered callback
with `self._state`; recorded as one entry (one firing of the callback set,
carrying the current state) in the observation log. -/
def fire_callbacks (d : Device) : Device :=
  { d with fires := d.fires ++ [d._state] }

/-- client.py lines 73-76, `_set_state_and_fire_callbacks`: if the stored
state differs (dataclass `__eq__`) from the new one, rebind `self._state` to
the new object (a wholesale replacement, hence the stateGen bump) and fire the
callbacks; otherwise do nothing.  A freshly constructed replacement object
carries no dynamic pump_volts attribute. -/
def set_state_and_fire_callbacks (d : Device) (s : OolerBLEState) : Device :=
  if pyEq d._state s then d
  else fire_callbacks { d with _state := s, stateGen := d.stateGen + 1 }

/-- client.py lines 38-48, the `is_connected` property.  Note that when a
handle is present and the transport reports it live while the stored
state.connected flag is false, the property ASSIGNS `self._state.connected =
True` — an in-place mutation of the stored state performed by a property
read. -/
def is_connected_prop (d : Device) : Bool × Device :=
  match d._client with
  | none => (false, d)
  | some c =>
    if c.is_connected then
      if !d._state.connected then
        (true, { d with _state := { d._state with connected := true } })
      else (true, d)
    else (false, d)

/-- client.py lines 55-58, the `state` property: returns `self._state`
unchanged (a pure read of the stored snapshot). -/
def state_prop (d : Device) : OolerBLEState × Device :=
  (d._state, d)

/-- client.py lines 243-250, `_reset_disconnect_timer`: cancel a pending
timer if any; DISCONNECT_DELAY = 120 > 0, so a new idle-disconnect timer is
always armed. -/
def reset_disconnect_timer (d : Device) : Device :=
  { d with _disconnect_timer := true }

/-- client.py lines 132-161, `_notification_handler`.  The if/elif chain
dispatches on the sender uuid; every matching branch decodes the bytes as a
little-endian integer and assigns the decoded value to the corresponding
field of the EXISTING state object (in-place mutation, stateGen unchanged).
The MODE branch indexes MODE_INT_TO_MODE_STATE, which raises IndexError for
an out-of-range index, aborting the handler before any assignment and before
any callback.  The final `self._fire_callbacks()` sits after the chain and is
UNCONDITIONAL: it runs on every delivery that did not raise, including
deliveries that left every field at its previous value, and also when no
branch matched the uuid. -/
def notification_handler (d : Device) (uuid : CharUuid) (data : List Nat) :
    Outcome × Device :=
  let n := intFromBytesLE data
  if uuid = .POWER_CHAR then
    (.ok, fire_callbacks { d with _state := { d._state with power := some (n ≠ 0) } })
  else if uuid = .MODE_CHAR then
    match pyListGet MODE_INT_TO_MODE_STATE n with
    | .error e => (.error e, d)
    | .ok mode =>
      (.ok, fire_callbacks { d with _state := { d._state with mode := some mode } })
  else if uuid = .SETTEMP_CHAR then
    (.ok, fire_callbacks { d with _state := { d._state with set_temperature := some (n : Int) } })
  else if uuid = .ACTUALTEMP_CHAR then
    (.ok, fire_callbacks { d with _state := { d._state with actual_temperature := some (n : Int) } })
  else if uuid = .WATER_LEVEL_CHAR then
    (.ok, fire_callbacks { d with _state := { d._state with water_level := some (n : Int) } })
  else if uuid = .PUMP_WATTS_CHAR then
    (.ok, fire_callbacks { d with _state := { d._state with pump_watts := some (n : Int) } })
  else if uuid = .PUMP_VOLTS_CHAR then
    (.ok, fire_callbacks { d with _state := { d._state with pump_volts := some (n : Int) } })
  else if uuid = .CLEAN_CHAR then
    (.ok, fire_callbacks { d with _state := { d._state with clean := some (n ≠ 0) } })
  else
    (.ok, fire_callbacks d)

/-- The constructor call at client.py line 190,
OolerBLEState(power, mode, settemp_int, actualtemp_int, waterlevel_int,
pumpwatts_int, pumpvolts_int, clean, name, True).
The dataclass declared in models.py has exactly eight fields, so its
generated __init__ accepts at most eight positional arguments; this call
passes ten positional arguments (it also passes pumpvolts and name, which are
not declared fields), so Python raises TypeError before any object is
constructed. -/
def oolerBLEStateCtor10 (_power : Bool) (_mode : String)
    (_settemp _actualtemp _waterlevel _pumpwatts _pumpvolts : Int)
    (_clean : Bool) (_name : String) (_connected : Bool) :
    Except PyError OolerBLEState :=
  .error .typeError

/-- The order in which async_poll (client.py lines 169-177) reads the
characteristics. -/
def pollReadOrder : List CharUuid :=
  [.POWER_CHAR, .MODE_CHAR, .SETTEMP_CHAR, .ACTUALTEMP_CHAR, .WATER_LEVEL_CHAR,
   .PUMP_WATTS_CHAR, .PUMP_VOLTS_CHAR, .CLEAN_CHAR, .NAME_CHAR]

/-- client.py lines 169-190: the read/decode/construct portion of async_poll.
None of these steps touches the device object: the nine sequential
read_gatt_char calls go to the transport, the decodes are pure, and the
OolerBLEState(...) construction raises before assigning anything, so the
whole portion is a transport-only computation producing either the new state
object or the first exception raised. -/
def pollCompute (t : Transport) : Except PyError OolerBLEState := do
  let power_byte ← t.read .POWER_CHAR
  let mode_byte ← t.read .MODE_CHAR
  let settemp_byte ← t.read .SETTEMP_CHAR
  let actualtemp_byte ← t.read .ACTUALTEMP_CHAR
  let waterlevel_byte ← t.read .WATER_LEVEL_CHAR
  let pumpwatts_byte ← t.read .PUMP_WATTS_CHAR
  let pumpvolts_byte ← t.read .PUMP_VOLTS_CHAR
  let clean_byte ← t.read .CLEAN_CHAR
  let name_byte ← t.read .NAME_CHAR
  let power := intFromBytesLE power_byte ≠ 0
  let mode ← pyListGet MODE_INT_TO_MODE_STATE (intFromBytesLE mode_byte)
  let settemp_int : Int := intFromBytesLE settemp_byte
  let actualtemp_int : Int := intFromBytesLE actualtemp_byte
  let waterlevel_int : Int := intFromBytesLE waterlevel_byte
  let pumpwatts_int : Int := intFromBytesLE pumpwatts_byte
  let pumpvolts_int : Int := intFromBytesLE pumpvolts_byte
  let clean := intFromBytesLE clean_byte ≠ 0
  let name ← asciiDecode name_byte
  oolerBLEStateCtor10 power mode settemp_int actualtemp_int waterlevel_int
    pumpwatts_int pumpvolts_int clean name true

/-- client.py lines 163-191, async_poll, in the case where `self._client` is
not None: run the reads/decodes/construction and, if no exception was raised,
apply `_set_state_and_fire_callbacks`; an exception propagates and leaves the
device untouched (no field assigned, no callback fired). -/
def async_poll_body (t : Transport) (d : Device) : Outcome × Device :=
  match pollCompute t with
  | .error e => (.error e, d)
  | .ok s => (.ok, set_state_and_fire_callbacks d s)

/-- client.py lines 91-130, `_ensure_connected`, for the single-caller
scenario (the connect lock is free, so it is acquired and released around the
body; the initial `self._connect_lock.locked()` test only logs).  Checks
is_connected (which may itself mutate state.connected), re-checks it under
the lock, establishes the connection, stores the handle, arms the idle timer,
performs the initial poll, then subscribes the eight notification
characteristics (a transport-only effect, reached only if the poll did not
raise).  An exception from establish_connection or from the poll propagates
with the lock released. -/
def ensure_connected (t : Transport) (d : Device) : Outcome × Device :=
  let (live, d) := is_connected_prop d
  if live then (.ok, reset_disconnect_timer d)
  else
    let (live2, d) := is_connected_prop d
    if live2 then (.ok, reset_disconnect_timer d)
    else
      match t.establish with
      | .error e => (.error e, d)
      | .ok c =>
        let d := { d with _client := some c }
        let d := reset_disconnect_timer d
        async_poll_body t d

/-- client.py lines 65-66, `connect`: delegates to `_ensure_connected`.  The
`await self.async_poll()` inside `_ensure_connected` runs with `self._client`
just assigned, so it takes the read branch, embedded above as
`async_poll_body`. -/
def connect (t : Transport) (d : Device) : Outcome × Device :=
  ensure_connected t d

/-- client.py lines 163-191, async_poll: with no client handle it delegates
to connect; otherwise it runs the read/decode/apply body. -/
def async_poll (t : Transport) (d : Device) : Outcome × Device :=
  match d._client with
  | none => connect t d
  | some _ => async_poll_body t d

/-- Python bool to Python int, as in `int(power)`. -/
def boolToInt (b : Bool) : Int := if b then 1 else 0

/-- client.py lines 193-203, set_power, with a fuel bound on the
retry-by-recursion of the else branch (exhausted fuel stands for Python's
RecursionError on unbounded recursion).  With a handle: encode
`int(power).to_bytes(1, "little")`, attempt the write (recorded in the
observation log), and on success assign `self._state.power` in place — no
callback fires on this path.  With no handle: `await self.connect()` then
retry the same setter; an exception from connect propagates with no write
attempted. -/
def set_power_fuel : Nat → Transport → Device → Bool → Outcome × Device
  | 0, _, d, _ => (.error .recursionError, d)
  | fuel + 1, t, d, power =>
    match d._client with
    | some _ =>
      match intToBytes1 (boolToInt power) with
      | .error e => (.error e, d)
      | .ok power_byte =>
        let d := { d with writes := d.writes ++ [(CharUuid.POWER_CHAR, power_byte, false)] }
        match t.write .POWER_CHAR power_byte false with
        | .error e => (.error e, d)
        | .ok _ => (.ok, { d with _state := { d._state with power := some power } })
    | none =>
      match connect t d with
      | (.error e, d) => (.error e, d)
      | (.ok, d) => set_power_fuel fuel t d power

/-- client.py lines 205-216, set_mode, with the same fuel bound.  With a
handle: `MODE_INT_TO_MODE_STATE.index(mode)` (ValueError if the mode string
is not in the table), encode, write, and on success assign
`self._state.mode` in place.  With no handle: connect then retry. -/
def set_mode_fuel : Nat → Transport → Device → String → Outcome × Device
  | 0, _, d, _ => (.error .recursionError, d)
  | fuel + 1, t, d, mode =>
    match d._client with
    | some _ =>
      match pyListIndex MODE_INT_TO_MODE_STATE mode with
      | .error e => (.error e, d)
      | .ok mode_int =>
        match intToBytes1 (mode_int : Int) with
        | .error e => (.error e, d)
        | .ok mode_byte =>
          let d := { d with writes := d.writes ++ [(CharUuid.MODE_CHAR, mode_byte, false)] }
          match t.write .MODE_CHAR mode_byte false with
          | .error e => (.error e, d)
          | .ok _ => (.ok, { d with _state := { d._state with mode := some mode } })
    | none =>
      match connect t d with
      | (.error e, d) => (.error e, d)
      | (.ok, d) => set_mode_fuel fuel t d mode

/-- client.py lines 218-228, set_temperature, with the same fuel bound.  The
write requests a response (third argument True).  On success assign
`self._state.set_temperature` in place.  With no handle: connect then
retry. -/
def set_temperature_fuel : Nat → Transport → Device → Int → Outcome × Device
  | 0, _, d, _ => (.error .recursionError, d)
  | fuel + 1, t, d, settemp_int =>
    match d._client with
    | some _ =>
      match intToBytes1 settemp_int with
      | .error e => (.error e, d)
      | .ok settemp_byte =>
        let d := { d with writes := d.writes ++ [(CharUuid.SETTEMP_CHAR, settemp_byte, true)] }
        match t.write .SETTEMP_CHAR settemp_byte true with
        | .error e => (.error e, d)
        | .ok _ => (.ok, { d with _state := { d._state with set_temperature := some settemp_int } })
    | none =>
      match connect t d with
      | (.error e, d) => (.error e, d)
      | (.ok, d) => set_temperature_fuel fuel t d settemp_int

/-- client.py lines 230-240, set_clean, with the same fuel bound.  On
success assign `self._state.clean` in place.  With no handle: connect then
retry. -/
def set_clean_fuel : Nat → Transport → Device → Bool → Outcome × Device
  | 0, _, d, _ => (.error .recursionError, d)
  | fuel + 1, t, d, clean =>
    match d._client with
    | some _ =>
      match intToBytes1 (boolToInt clean) with
      | .error e => (.error e, d)
      | .ok clean_byte =>
        let d := { d with writes := d.writes ++ [(CharUuid.CLEAN_CHAR, clean_byte, false)] }
        match t.write .CLEAN_CHAR clean_byte false with
        | .error e => (.error e, d)
        | .ok _ => (.ok, { d with _state := { d._state with clean := some clean } })
    | none =>
      match connect t d with
      | (.error e, d) => (.error e, d)
      | (.ok, d) => set_clean_fuel fuel t d clean

/-- The eight stop_notify calls of `_execute_disconnect` (client.py lines
281-288), in order; a transport-only effect. -/
def stopAllNotify (t : Transport) : Except PyError Unit := do
  let _ ← t.stopNotify .POWER_CHAR
  let _ ← t.stopNotify .MODE_CHAR
  let _ ← t.stopNotify .SETTEMP_CHAR
  let _ ← t.stopNotify .ACTUALTEMP_CHAR
  let _ ← t.stopNotify .WATER_LEVEL_CHAR
  let _ ← t.stopNotify .PUMP_WATTS_CHAR
  let _ ← t.stopNotify .PUMP_VOLTS_CHAR
  let _ ← t.stopNotify .CLEAN_CHAR
  pure ()

/-- client.py lines 274-289, `_execute_disconnect`, single-caller scenario
(the connect lock is free).  Reads the handle, sets `_expected_disconnect`,
clears `self._client`, and if the old handle existed and the transport
reports it live, unsubscribes the eight notification characteristics and
closes the transport session.  Note that nothing here touches
`self._disconnect_timer` and nothing assigns `self._state.connected`. -/
def execute_disconnect (t : Transport) (d : Device) : Outcome × Device :=
  let client := d._client
  let d := { d with _expected_disconnect := true, _client := none }
  match client with
  | some c =>
    if c.is_connected then
      match stopAllNotify t with
      | .error e => (.error e, d)
      | .ok _ =>
        match t.disconnectClient with
        | .error e => (.error e, d)
        | .ok _ => (.ok, d)
    else (.ok, d)
  | none => (.ok, d)

/-- client.py lines 68-71, `stop`: logs and delegates to
`_execute_disconnect`. -/
def stop (t : Transport) (d : Device) : Outcome × Device :=
  execute_disconnect t d

/-- client.py lines 252-258, `_disconnected_callback` (invoked by the
transport on an unsolicited drop): assigns `self._state.connected = False` in
place and fires the callbacks. -/
def disconnected_callback (d : Device) : Device :=
  fire_callbacks { d with _state := { d._state with connected := false } }

/-- The mode encoder used by set_mode (client.py lines 208-209):
MODE_INT_TO_MODE_STATE.index(mode) followed by .to_bytes(1, "little"). -/
def encodeMode (mode : String) : Except PyError (List Nat) := do
  let mode_int ← pyListIndex MODE_INT_TO_MODE_STATE mode
  intToBytes1 (mode_int : Int)

/-- The mode decoder used by the notification handler and the poll
(client.py lines 140-141 and 180-181): int.from_bytes little-endian, then
table lookup. -/
def decodeMode (bs : List Nat) : Except PyError String :=
  pyListGet MODE_INT_TO_MODE_STATE (intFromBytesLE bs)

/-- The boolean encoder used by set_power and set_clean (client.py lines
196 and 232): int(b).to_bytes(1, "little"). -/
def encodeBoolPy (b : Bool) : Except PyError (List Nat) :=
  intToBytes1 (boolToInt b)

/-- The boolean decoder used by the notification handler and the poll
(client.py lines 137 and 179): bool(int.from_bytes(data, "little")). -/
def decodeBoolPy (bs : List Nat) : Bool :=
  intFromBytesLE bs ≠ 0

/-- The stub transport of the connect() scenario: every transport call
succeeds; the reads return power=1, mode=1 (Regular), setTemp=68,
actualTemp=70, and plausible values for the remaining characteristics. -/
def stubTransportC3 : Transport where
  establish := .ok ⟨true⟩
  read := fun u =>
    match u with
    | .POWER_CHAR => .ok [1]
    | .MODE_CHAR => .ok [1]
    | .SETTEMP_CHAR => .ok [68]
    | .ACTUALTEMP_CHAR => .ok [70]
    | .WATER_LEVEL_CHAR => .ok [50]
    | .PUMP_WATTS_CHAR => .ok [5]
    | .PUMP_VOLTS_CHAR => .ok [12]
    | .CLEAN_CHAR => .ok [0]
    | .NAME_CHAR => .ok [79]
  write := fun _ _ _ => .ok ()
  stopNotify := fun _ => .ok ()
  disconnectClient := .ok ()

/-- A transport stub on which every call succeeds (reads return [1]). -/
def okTransport : Transport where
  establish := .ok ⟨true⟩
  read := fun _ => .ok [1]
  write := fun _ _ _ => .ok ()
  stopNotify := fun _ => .ok ()
  disconnectClient := .ok ()

/-- A transport stub whose establish_connection fails. -/
def failConnectTransport : Transport where
  establish := .error .transportError
  read := fun _ => .ok [1]
  write := fun _ _ _ => .ok ()
  stopNotify := fun _ => .ok ()
  disconnectClient := .ok ()

/-- A transport stub on which the third poll read (the SETTEMP
characteristic) fails with a transport error and every other call
succeeds. -/
def failSetTempReadTransport : Transport where
  establish := .ok ⟨true⟩
  read := fun u => if u = .SETTEMP_CHAR then .error .transportError else .ok [1]
  write := fun _ _ _ => .ok ()
  stopNotify := fun _ => .ok ()
  disconnectClient := .ok ()

/-- A device with a live client handle and otherwise default state. -/
def connectedDevice : Device :=
  { freshDevice with _client := some ⟨true⟩ }

/-- A connected device whose stored power field is false. -/
def poweredOffDevice : Device :=
  { freshDevice with
    _client := some ⟨true⟩,
    _state := { initState with power := some false } }

/-- A connected device holding last-known sensor data, a pending
idle-disconnect timer, and connected = true. -/
def populatedDevice : Device :=
  { freshDevice with
    _client := some ⟨true⟩,
    _disconnect_timer := true,
    _state := { initState with connected := true, actual_temperature := some 70 } }

/-- A disconnected device with a pending idle-disconnect timer. -/
def idleDevice : Device :=
  { freshDevice with _disconnect_timer := true }

/-- A connected device whose stored connected flag is already true. -/
def flaggedDevice : Device :=
  { freshDevice with
    _client := some ⟨true⟩,
    _state := { initState with connected := true } }

/-- Bind in the Except monad never succeeds when the continuation never
succeeds. -/
theorem exceptBind_never_ok {α β : Type} (x : Except PyError α)
    (f : α → Except PyError β) (h : ∀ a b, f a ≠ Except.ok b) (b : β) :
    x >>= f ≠ Except.ok b := by
  cases x with
  | error e => intro hc; simp [Bind.bind, Except.bind] at hc
  | ok a => intro hc; simp [Bind.bind, Except.bind] at hc; exact h a b hc

/-- The read/decode/construct portion of async_poll can never return a state:
its final step is the ten-positional-argument OolerBLEState construction,
which always raises TypeError. -/
theorem pollCompute_never_ok (t : Transport) (s : OolerBLEState) :
    pollCompute t ≠ Except.ok s := by
  unfold pollCompute
  apply exceptBind_never_ok; intro a1 b1; dsimp only
  apply exceptBind_never_ok; intro a2 b2; dsimp only
  apply exceptBind_never_ok; intro a3 b3; dsimp only
  apply exceptBind_never_ok; intro a4 b4; dsimp only
  apply exceptBind_never_ok; intro a5 b5; dsimp only
  apply exceptBind_never_ok; intro a6 b6; dsimp only
  apply exceptBind_never_ok; intro a7 b7; dsimp only
  apply exceptBind_never_ok; intro a8 b8; dsimp only
  apply exceptBind_never_ok; intro a9 b9; dsimp only
  apply exceptBind_never_ok; intro a10 b10; dsimp only
  apply exceptBind_never_ok; intro a11 b11
  simp [oolerBLEStateCtor10]

/-- async_poll with a client handle always raises and leaves the device
untouched. -/
theorem async_poll_body_errors (t : Transport) (d : Device) :
    ∃ e, async_poll_body t d = (Outcome.error e, d) := by
  cases h : pollCompute t with
  | error e => exact ⟨e, by unfold async_poll_body; rw [h]⟩
  | ok s => exact absurd h (pollCompute_never_ok t s)

/-- is_connected on a device without a handle: false, nothing mutated. -/
theorem is_connected_prop_none (d : Device) (hc : d._client = none) :
    is_connected_prop d = (false, d) := by
  unfold is_connected_prop; rw [hc]

/-- The is_connected property can only touch the stored state (the connected
flag); every other attribute and both observation logs are preserved. -/
theorem is_connected_prop_frame (d : Device) :
    (is_connected_prop d).2.writes = d.writes ∧
    (is_connected_prop d).2.fires = d.fires ∧
    (is_connected_prop d).2._client = d._client := by
  unfold is_connected_prop
  cases hc : d._client with
  | none => exact ⟨rfl, rfl, hc⟩
  | some c =>
    by_cases hl : c.is_connected <;> by_cases hf : d._state.connected <;>
      simp [hl, hf, hc]

/-- A connect call from a device without a handle: if establish_connection
fails the error propagates with the device unchanged; if it succeeds, the
handle is stored, the idle timer armed, and the initial poll runs. -/
theorem connect_none_spec (t : Transport) (d : Device) (hc : d._client = none) :
    (∀ e, t.establish = .error e → connect t d = (Outcome.error e, d)) ∧
    (∀ c, t.establish = .ok c →
      connect t d =
        async_poll_body t (reset_disconnect_timer { d with _client := some c })) := by
  have hic : is_connected_prop d = (false, d) := is_connected_prop_none d hc
  constructor
  · intro e he
    unfold connect ensure_connected
    simp [hic, he]
  · intro c hcc
    unfold connect ensure_connected
    simp [hic, hcc]

/-- async_poll with a client handle leaves the device exactly as it was. -/
theorem async_poll_body_post (t : Transport) (d : Device) :
    (async_poll_body t d).2 = d := by
  obtain ⟨e, hb⟩ := async_poll_body_errors t d
  rw [hb]

/-- A connect call from a device without a handle always raises (either
establish_connection fails, or the initial poll raises — at the latest at the
ten-argument OolerBLEState construction), and the device it leaves behind has
the same state snapshot and the same observation logs. -/
theorem connect_none_err (t : Transport) (d : Device) (hc : d._client = none) :
    ∃ e d', connect t d = (Outcome.error e, d') ∧ d'.writes = d.writes ∧
      d'.fires = d.fires ∧ d'._state = d._state := by
  obtain ⟨hestE, hestO⟩ := connect_none_spec t d hc
  cases h : t.establish with
  | error e => exact ⟨e, d, hestE e h, rfl, rfl, rfl⟩
  | ok c =>
    obtain ⟨e, hb⟩ :=
      async_poll_body_errors t (reset_disconnect_timer { d with _client := some c })
    exact ⟨e, reset_disconnect_timer { d with _client := some c },
      by rw [hestO c h, hb], rfl, rfl, rfl⟩

/-- A connect call from a device without a handle never returns normally. -/
theorem connect_none_not_ok (t : Transport) (d : Device) (hc : d._client = none) :
    (connect t d).1 ≠ Outcome.ok := by
  obtain ⟨e, d', h, -⟩ := connect_none_err t d hc
  rw [h]
  simp

/-- No path of connect records a GATT write. -/
theorem connect_preserves_writes (t : Transport) (d : Device) :
    (connect t d).2.writes = d.writes := by
  unfold connect ensure_connected
  rcases h1 : is_connected_prop d with ⟨live, d1⟩
  have w1 : d1.writes = d.writes := by
    have hw := (is_connected_prop_frame d).1
    rw [h1] at hw
    exact hw
  rcases h2 : is_connected_prop d1 with ⟨live2, d2⟩
  have w2 : d2.writes = d1.writes := by
    have hw := (is_connected_prop_frame d1).1
    rw [h2] at hw
    exact hw
  cases live with
  | true => simpa [reset_disconnect_timer] using w1
  | false =>
    cases live2 with
    | true => simp [h2, reset_disconnect_timer, w2, w1]
    | false =>
      cases hest : t.establish with
      | error e => simp [h2, hest, w2, w1]
      | ok c =>
        simp [h2, hest, async_poll_body_post, reset_disconnect_timer, w2, w1]

/-- A delivery to the notification handler that does not raise appends
exactly one firing of the callback set and never rebinds self._state (the
heap identity stateGen is unchanged: every assignment is an in-place field
mutation of the existing state object). -/
theorem handler_shape (d : Device) (uuid : CharUuid) (data : List Nat)
    (hok : (notification_handler d uuid data).1 = Outcome.ok) :
    (notification_handler d uuid data).2.fires.length = d.fires.length + 1 ∧
    (notification_handler d uuid data).2.stateGen = d.stateGen := by
  cases uuid <;>
    (simp [notification_handler, fire_callbacks] at hok ⊢
     try (split at hok <;> simp_all))

/-- Corollary of handler_shape in equation form. -/
theorem handler_ok_fires {d d' : Device} {uuid : CharUuid} {data : List Nat}
    (h : notification_handler d uuid data = (Outcome.ok, d')) :
    d'.fires.length = d.fires.length + 1 := by
  have hs := handler_shape d uuid data (by rw [h])
  rw [h] at hs
  exact hs.1

/-- Corollary of handler_shape in equation form. -/
theorem handler_ok_stateGen {d d' : Device} {uuid : CharUuid} {data : List Nat}
    (h : notification_handler d uuid data = (Outcome.ok, d')) :
    d'.stateGen = d.stateGen := by
  have hs := handler_shape d uuid data (by rw [h])
  rw [h] at hs
  exact hs.2

/-- Closed form of set_power on a device with a client handle: encode the
byte, record and attempt the write, and on success mutate the power field of
the existing state object in place; on write failure the error propagates
with the field untouched.  No callback fires and self._state is never
rebound on either path. -/
theorem set_power_connected (t : Transport) (d : Device) (c : BleakClientModel)
    (p : Bool) (f : Nat) (hc : d._client = some c) :
    set_power_fuel (f + 1) t d p =
      match t.write .POWER_CHAR (if p then [1] else [0]) false with
      | .error e => (Outcome.error e,
          { d with writes := d.writes ++ [(CharUuid.POWER_CHAR, if p then [1] else [0], false)] })
      | .ok _ => (Outcome.ok,
          { d with
            _state := { d._state with power := some p },
            writes := d.writes ++ [(CharUuid.POWER_CHAR, if p then [1] else [0], false)] }) := by
  cases p <;> simp [set_power_fuel, hc, boolToInt, intToBytes1]

/-- C1 counterexample: delivering the same encoded POWER byte value [1] twice
in a row to the notification handler of a fresh device fires the registered
callback set twice — not at most once as the claim states. -/
theorem C1_counterexample :
    (notification_handler (notification_handler freshDevice .POWER_CHAR [1]).2
        .POWER_CHAR [1]).2.fires.length = 2 ∧
    ¬ ((notification_handler (notification_handler freshDevice .POWER_CHAR [1]).2
        .POWER_CHAR [1]).2.fires.length ≤ 1) := by decide

/-- C1 amended: the notification handler performs no de-duplication at all —
it mutates the field in place and fires the registered callback set
unconditionally on every delivery that decodes, so delivering the same
encoded byte value twice in a row fires the callback set exactly twice. -/
theorem C1_notification_no_dedup (d d1 d2 : Device) (uuid : CharUuid)
    (data : List Nat)
    (h1 : notification_handler d uuid data = (Outcome.ok, d1))
    (h2 : notification_handler d1 uuid data = (Outcome.ok, d2)) :
    d2.fires.length = d.fires.length + 2 := by
  have e1 := handler_ok_fires h1
  have e2 := handler_ok_fires h2
  omega

/-- C1 witness: two deliveries of the SETTEMP byte [65] to a fresh device
fire the callback set twice. -/
theorem C1_witness :
    notification_handler freshDevice .SETTEMP_CHAR [65] =
      (Outcome.ok, (notification_handler freshDevice .SETTEMP_CHAR [65]).2) ∧
    (notification_handler (notification_handler freshDevice .SETTEMP_CHAR [65]).2
        .SETTEMP_CHAR [65]).2.fires.length = freshDevice.fires.length + 2 := by
  refine ⟨by decide, ?_⟩
  exact C1_notification_no_dedup freshDevice
    (notification_handler freshDevice .SETTEMP_CHAR [65]).2
    (notification_handler (notification_handler freshDevice .SETTEMP_CHAR [65]).2
      .SETTEMP_CHAR [65]).2
    .SETTEMP_CHAR [65] (by decide) (by decide)

/-- C2: if any of the characteristic reads performed by poll() fails, the
whole call raises, the stored DeviceState is exactly what it was before the
call, and no callback fires (the returned device is unchanged, observation
logs included). -/
theorem C2_poll_read_failure_atomic (t : Transport) (d : Device)
    (c : BleakClientModel) (N : Fin pollReadOrder.length) (err : PyError)
    (hc : d._client = some c)
    (_hread : t.read (pollReadOrder.get N) = .error err) :
    (async_poll t d).2 = d ∧ ∃ e, (async_poll t d).1 = Outcome.error e := by
  obtain ⟨e, he⟩ := async_poll_body_errors t d
  have hpoll : async_poll t d = (Outcome.error e, d) := by
    unfold async_poll
    rw [hc]
    exact he
  rw [hpoll]
  exact ⟨rfl, e, rfl⟩

/-- C2 witness: a transport failing the third poll read (SETTEMP) leaves a
connected device exactly as it was. -/
theorem C2_witness :
    connectedDevice._client = some ⟨true⟩ ∧
    failSetTempReadTransport.read (pollReadOrder.get ⟨2, by decide⟩) =
      Except.error PyError.transportError ∧
    ((async_poll failSetTempReadTransport connectedDevice).2 = connectedDevice ∧
      ∃ e, (async_poll failSetTempReadTransport connectedDevice).1 = Outcome.error e) :=
  ⟨rfl, rfl,
    C2_poll_read_failure_atomic failSetTempReadTransport connectedDevice ⟨true⟩
      ⟨2, by decide⟩ .transportError rfl rfl⟩

/-- C3 (code bug): connect() on the stub transport of the claim does NOT
produce the claimed stored state and callback; the initial poll's
ten-positional-argument OolerBLEState(...) construction (client.py line 190)
raises TypeError against the eight-field dataclass of models.py, so connect
raises, the stored state stays at its defaults, and no callback ever
fires. -/
theorem C3_connect_scenario_raises :
    (connect stubTransportC3 freshDevice).1 = Outcome.error PyError.typeError ∧
    (connect stubTransportC3 freshDevice).2._state = initState ∧
    (connect stubTransportC3 freshDevice).2.fires = [] := by decide

/-- C4 counterexample: an ACTUALTEMP notification changes the stored state
content but leaves the heap identity stateGen unchanged — the state object is
field-mutated in place by the notification path, not replaced wholesale. -/
theorem C4_counterexample :
    (notification_handler freshDevice .ACTUALTEMP_CHAR [70]).2.stateGen =
      freshDevice.stateGen ∧
    (notification_handler freshDevice .ACTUALTEMP_CHAR [70]).2._state ≠
      freshDevice._state := by decide

/-- C4 amended: only the poll path's update primitive
_set_state_and_fire_callbacks replaces the stored state wholesale (new heap
identity) on change, with the single structural-equality check; the
notification handler and the command setters mutate fields of the existing
state object in place (heap identity preserved) and perform no equality
check. -/
theorem C4_update_paths :
    (∀ (d : Device) (s : OolerBLEState), pyEq d._state s = false →
      (set_state_and_fire_callbacks d s).stateGen = d.stateGen + 1 ∧
      (set_state_and_fire_callbacks d s)._state = s ∧
      (set_state_and_fire_callbacks d s).fires = d.fires ++ [s]) ∧
    (∀ (d d' : Device) (uuid : CharUuid) (data : List Nat),
      notification_handler d uuid data = (Outcome.ok, d') →
      d'.stateGen = d.stateGen) ∧
    (∀ (t : Transport) (d : Device) (c : BleakClientModel) (p : Bool) (f : Nat),
      d._client = some c →
      (set_power_fuel (f + 1) t d p).2.stateGen = d.stateGen) := by
  refine ⟨?_, ?_, ?_⟩
  · intro d s hne
    simp [set_state_and_fire_callbacks, hne, fire_callbacks]
  · intro d d' uuid data h
    exact handler_ok_stateGen h
  · intro t d c p f hc
    rw [set_power_connected t d c p f hc]
    cases hw : t.write .POWER_CHAR (if p then [1] else [0]) false <;> simp

/-- C4 witness: the three update paths evaluated at concrete inputs. -/
theorem C4_witness :
    (set_state_and_fire_callbacks freshDevice
      { initState with power := some true }).stateGen = freshDevice.stateGen + 1 ∧
    (notification_handler freshDevice .WATER_LEVEL_CHAR [9]).2.stateGen =
      freshDevice.stateGen ∧
    (set_power_fuel 1 okTransport connectedDevice true).2.stateGen =
      connectedDevice.stateGen := by
  refine ⟨(C4_update_paths.1 freshDevice _ (by decide)).1, ?_, ?_⟩
  · exact C4_update_paths.2.1 freshDevice _ .WATER_LEVEL_CHAR [9] (by decide)
  · exact C4_update_paths.2.2 okTransport connectedDevice ⟨true⟩ true 0 rfl

/-- C5 counterexample: stop() on a connected device with a pending
idle-disconnect timer and connected=true returns normally but neither
cancels the timer nor marks the stored state connected=false. -/
theorem C5_counterexample :
    (stop okTransport populatedDevice).1 = Outcome.ok ∧
    (stop okTransport populatedDevice).2._disconnect_timer = true ∧
    (stop okTransport populatedDevice).2._state.connected = true := by decide

/-- C5 amended: stop acquires the connection mutex, sets the
expected-disconnect flag, clears the transport handle, and unsubscribes the
notifications and closes the session only when the link is still reported
live; it does NOT cancel the pending idle-disconnect timer and does NOT
itself mark connected=false (that flag is only cleared by the transport's
disconnected callback); the stored sensor values are retained unchanged.
Calling it when already disconnected performs no transport interaction and
changes nothing but the expected-disconnect flag. -/
theorem C5_stop_behaviour (t : Transport) (d : Device) :
    (stop t d).2._client = none ∧
    (stop t d).2._expected_disconnect = true ∧
    (stop t d).2._disconnect_timer = d._disconnect_timer ∧
    (stop t d).2._state = d._state ∧
    (stop t d).2.fires = d.fires ∧
    (d._client = none →
      stop t d = (Outcome.ok, { d with _expected_disconnect := true, _client := none })) := by
  unfold stop execute_disconnect
  cases hc : d._client with
  | none => simp
  | some c =>
    by_cases hl : c.is_connected
    · cases hs : stopAllNotify t with
      | error e => simp [hl, hs, hc]
      | ok u =>
        cases hd : t.disconnectClient <;> simp [hl, hs, hd, hc]
    · simp [hl, hc]

/-- C5 witness: stop on an already-disconnected device with a pending timer:
normal return, expected-disconnect set, timer and state untouched. -/
theorem C5_witness :
    stop okTransport idleDevice =
      (Outcome.ok, { idleDevice with _expected_disconnect := true, _client := none }) ∧
    (stop okTransport idleDevice).2._disconnect_timer = idleDevice._disconnect_timer ∧
    (stop okTransport idleDevice).2._state = idleDevice._state := by
  have h := C5_stop_behaviour okTransport idleDevice
  exact ⟨h.2.2.2.2.2 rfl, h.2.2.1, h.2.2.2.1⟩

/-- C6 counterexample: an empty byte slice delivered for SETTEMP does not
fail at all — it decodes silently to the integer 0 and is stored, where the
claim demands a DecodeError on an empty byte slice. -/
theorem C6_counterexample :
    (notification_handler freshDevice .SETTEMP_CHAR []).1 = Outcome.ok ∧
    (notification_handler freshDevice .SETTEMP_CHAR []).2._state.set_temperature =
      some 0 := by decide

/-- C6 amended: an out-of-range mode index raises the generic IndexError of
the Python list lookup (the code defines no DecodeError type), aborting the
delivery with the device unchanged; an empty byte slice never fails —
int.from_bytes of an empty slice is 0, so an empty SETTEMP payload stores
temperature 0 and an empty MODE payload stores mode Silent. -/
theorem C6_decode_failures (d : Device) (data : List Nat)
    (hbig : MODE_INT_TO_MODE_STATE.length ≤ intFromBytesLE data) :
    notification_handler d .MODE_CHAR data = (Outcome.error PyError.indexError, d) ∧
    notification_handler d .SETTEMP_CHAR [] =
      (Outcome.ok,
        fire_callbacks { d with _state := { d._state with set_temperature := some 0 } }) ∧
    notification_handler d .MODE_CHAR [] =
      (Outcome.ok,
        fire_callbacks { d with _state := { d._state with mode := some "Silent" } }) := by
  refine ⟨?_, rfl, rfl⟩
  have hget : pyListGet MODE_INT_TO_MODE_STATE (intFromBytesLE data) =
      .error .indexError := by
    unfold pyListGet
    rw [List.get?_eq_none.mpr hbig]
  simp [notification_handler, hget]

/-- C6 witness: the decoded mode index 5 is out of the three-entry table, and
the delivery aborts with IndexError leaving the device unchanged. -/
theorem C6_witness :
    MODE_INT_TO_MODE_STATE.length ≤ intFromBytesLE [5] ∧
    notification_handler connectedDevice .MODE_CHAR [5] =
      (Outcome.error PyError.indexError, connectedDevice) := by
  refine ⟨by decide, ?_⟩
  exact (C6_decode_failures connectedDevice [5] (by decide)).1

/-- C7 counterexample: set_power(true) on a connected device whose stored
power is false succeeds and flips the stored field — the new state differs
structurally from the previous one, yet no callback fires, so the setter does
not run the change-gated update the claim describes. -/
theorem C7_counterexample :
    (set_power_fuel 1 okTransport poweredOffDevice true).1 = Outcome.ok ∧
    (set_power_fuel 1 okTransport poweredOffDevice true).2._state.power = some true ∧
    pyEq (set_power_fuel 1 okTransport poweredOffDevice true).2._state
      poweredOffDevice._state = false ∧
    (set_power_fuel 1 okTransport poweredOffDevice true).2.fires =
      poweredOffDevice.fires := by decide

/-- C7 amended: on a connected instance a successful write optimistically
assigns the written value to the corresponding field of the stored state in
place, immediately observable, without any notification — but no change-gated
update runs and no callback fires on the command path. -/
theorem C7_optimistic_set (t : Transport) (d : Device) (c : BleakClientModel)
    (p : Bool) (f : Nat) (hc : d._client = some c)
    (hw : t.write .POWER_CHAR (if p then [1] else [0]) false = .ok ()) :
    set_power_fuel (f + 1) t d p =
      (Outcome.ok,
        { d with
          _state := { d._state with power := some p },
          writes := d.writes ++ [(CharUuid.POWER_CHAR, if p then [1] else [0], false)] }) := by
  rw [set_power_connected t d c p f hc, hw]

/-- C7 witness: set_power(true) on a connected device with power unknown. -/
theorem C7_witness :
    set_power_fuel 1 okTransport connectedDevice true =
      (Outcome.ok,
        { connectedDevice with
          _state := { connectedDevice._state with power := some true },
          writes := connectedDevice.writes ++ [(CharUuid.POWER_CHAR, [1], false)] }) := by
  have h := C7_optimistic_set okTransport connectedDevice ⟨true⟩ true 0 rfl rfl
  simpa using h

/-- C8: a setter invoked with no live transport handle calls connect() and
retries the setter through at most one level of recursion (the result is
already stable at fuel 1); when connect raises, the error propagates
unchanged to the caller and no GATT write is attempted. -/
theorem C8_setter_reconnect (t : Transport) (d d' : Device) (p : Bool)
    (mode : String) (v : Int) (b : Bool) (f : Nat) (e : PyError)
    (hc : d._client = none) (hconn : connect t d = (Outcome.error e, d')) :
    set_power_fuel (f + 1) t d p = (Outcome.error e, d') ∧
    set_mode_fuel (f + 1) t d mode = (Outcome.error e, d') ∧
    set_temperature_fuel (f + 1) t d v = (Outcome.error e, d') ∧
    set_clean_fuel (f + 1) t d b = (Outcome.error e, d') ∧
    d'.writes = d.writes ∧
    set_power_fuel (f + 1) t d p = set_power_fuel 1 t d p := by
  have hw : d'.writes = d.writes := by
    have h := connect_preserves_writes t d
    rw [hconn] at h
    exact h
  have hsp : set_power_fuel (f + 1) t d p = (Outcome.error e, d') := by
    simp [set_power_fuel, hc, hconn]
  have hsp1 : set_power_fuel 1 t d p = (Outcome.error e, d') := by
    simp [set_power_fuel, hc, hconn]
  refine ⟨hsp, ?_, ?_, ?_, hw, by rw [hsp, hsp1]⟩
  · simp [set_mode_fuel, hc, hconn]
  · simp [set_temperature_fuel, hc, hconn]
  · simp [set_clean_fuel, hc, hconn]

/-- C8 witness: a fresh device and a transport whose establish fails: the
connect error propagates out of set_power and set_temperature with no write
attempted. -/
theorem C8_witness :
    freshDevice._client = none ∧
    connect failConnectTransport freshDevice =
      (Outcome.error PyError.transportError, freshDevice) ∧
    set_power_fuel 1 failConnectTransport freshDevice true =
      (Outcome.error PyError.transportError, freshDevice) ∧
    set_temperature_fuel 1 failConnectTransport freshDevice 68 =
      (Outcome.error PyError.transportError, freshDevice) ∧
    freshDevice.writes = freshDevice.writes := by
  have h := C8_setter_reconnect failConnectTransport freshDevice freshDevice true
    "Silent" 68 false 0 PyError.transportError rfl rfl
  exact ⟨rfl, rfl, h.1, h.2.2.1, h.2.2.2.2.1⟩

/-- C9: the wire codec round-trips on every valid domain: each of the three
mode strings encodes to its table index byte and decodes back to itself; each
boolean encodes to a byte and decodes back; every integer in a byte's range
0..255 survives to_bytes(1,little) followed by from_bytes(little). -/
theorem C9_codec_roundtrip :
    (∀ m ∈ MODE_INT_TO_MODE_STATE,
      ∃ bs, encodeMode m = .ok bs ∧ decodeMode bs = .ok m) ∧
    (∀ b : Bool, ∃ bs, encodeBoolPy b = .ok bs ∧ decodeBoolPy bs = b) ∧
    (∀ v : Int, 0 ≤ v → v < 256 →
      ∃ bs, intToBytes1 v = .ok bs ∧ (intFromBytesLE bs : Int) = v) := by
  refine ⟨?_, ?_, ?_⟩
  · intro m hm
    fin_cases hm
    · exact ⟨[0], rfl, rfl⟩
    · exact ⟨[1], rfl, rfl⟩
    · exact ⟨[2], rfl, rfl⟩
  · intro b
    cases b
    · exact ⟨[0], rfl, rfl⟩
    · exact ⟨[1], rfl, rfl⟩
  · intro v h0 h256
    refine ⟨[v.toNat], ?_, ?_⟩
    · unfold intToBytes1
      rw [if_pos ⟨h0, h256⟩]
    · simp [intFromBytesLE, Int.toNat_of_nonneg h0]

/-- C9 witness: the round-trip evaluated for the mode Boost, the boolean
true, and the temperature 68. -/
theorem C9_witness :
    ("Boost" ∈ MODE_INT_TO_MODE_STATE ∧ (0 : Int) ≤ 68 ∧ (68 : Int) < 256) ∧
    (∃ bs, encodeMode "Boost" = .ok bs ∧ decodeMode bs = .ok "Boost") ∧
    (∃ bs, encodeBoolPy true = .ok bs ∧ decodeBoolPy bs = true) ∧
    (∃ bs, intToBytes1 68 = .ok bs ∧ (intFromBytesLE bs : Int) = 68) := by
  refine ⟨⟨by decide, by decide, by decide⟩, ?_, ?_, ?_⟩
  · exact C9_codec_roundtrip.1 "Boost" (by decide)
  · exact C9_codec_roundtrip.2.1 true
  · exact C9_codec_roundtrip.2.2 68 (by decide) (by decide)

/-- C10 counterexample: reading the is_connected property of a device whose
handle is live but whose stored connected flag is false MUTATES the stored
DeviceState (it sets connected := true), so the external read accessor is not
a pure query. -/
theorem C10_counterexample :
    (is_connected_prop connectedDevice).1 = true ∧
    (is_connected_prop connectedDevice).2._state ≠ connectedDevice._state ∧
    (is_connected_prop connectedDevice).2._state.connected = true := by decide

/-- C10 amended: the state property is a pure snapshot read, and is_connected
is pure whenever the stored connected flag is already true (or no handle is
present); but when a handle is present, the transport reports it live, and
the stored flag is false, reading is_connected sets connected := true in the
stored state as a side effect. -/
theorem C10_read_accessors (d : Device) (c : BleakClientModel) :
    state_prop d = (d._state, d) ∧
    (d._state.connected = true → (is_connected_prop d).2 = d) ∧
    (d._client = some c → c.is_connected = true → d._state.connected = false →
      is_connected_prop d =
        (true, { d with _state := { d._state with connected := true } })) := by
  refine ⟨rfl, ?_, ?_⟩
  · intro hf
    unfold is_connected_prop
    cases hc : d._client with
    | none => rfl
    | some c2 => by_cases hl : c2.is_connected <;> simp [hl, hf]
  · intro hc hl hf
    unfold is_connected_prop
    rw [hc]
    simp [hl, hf]

/-- C10 witness: the accessors evaluated on a device with the flag already
set (pure) and on one with a live handle and a stale flag (mutating). -/
theorem C10_witness :
    state_prop flaggedDevice = (flaggedDevice._state, flaggedDevice) ∧
    (is_connected_prop flaggedDevice).2 = flaggedDevice ∧
    is_connected_prop connectedDevice =
      (true,
        { connectedDevice with
          _state := { connectedDevice._state with connected := true } }) := by
  refine ⟨(C10_read_accessors flaggedDevice ⟨true⟩).1, ?_, ?_⟩
  · exact (C10_read_accessors flaggedDevice ⟨true⟩).2.1 rfl
  · exact (C10_read_accessors connectedDevice ⟨true⟩).2.2 rfl rfl rfl

end Ooler
